import Mathlib

/-!
Shallow embedding of the WeCom (企业微信) channel plugin's delivery pipeline:
the message adapter (outbound/inbound translation, mention utilities), the
API client's access-token lifecycle, and the sender's retry loop.
Strings are modelled as lists of characters; JavaScript truthiness of
strings (empty string is falsy) is modelled explicitly.
-/

namespace WeCom

/-- Strings modelled as lists of characters. -/
abbrev Str := List Char

/-- JS `a || b` where `a` is a possibly-undefined string: an empty string is
falsy, so it falls through to the default. -/
def jsOrStr : Option Str → Str → Str
  | some s, d => if s = [] then d else s
  | none, d => d

/-- JS truthiness filter on a possibly-undefined string: `undefined` and the
empty string both become `none`. -/
def optTruthy : Option Str → Option Str
  | some s => if s = [] then none else some s
  | none => none

/-- Render an integer as its decimal string (JS `Number.prototype.toString`). -/
def intToStr (n : Int) : Str :=
  if n < 0 then '-' :: Nat.toDigits 10 n.natAbs else Nat.toDigits 10 n.toNat

/-- Peer kind of the generic channel model (`ChannelPeer.kind`): direct
message or group (department) target. -/
inductive PeerKind
  | dm
  | group
deriving DecidableEq

/-- Generic channel peer (`ChannelPeer` from the plugin SDK). -/
structure ChannelPeer where
  kind : PeerKind
  id : Str
  name : Str

/-- Generic channel media item (`ChannelMedia`): the adapter switches on its
`type` string, so the type is kept as a string. -/
structure ChannelMedia where
  type : Str
  url : Str
  caption : Option Str := none

/-- The only field of `replyTo` the adapter reads is `senderName`. -/
structure ReplyRef where
  senderName : Option Str := none

/-- One entry of the generic mentions list. -/
structure ChannelMention where
  userId : Str
  name : Str

/-- Generic event field: `type` is the vendor event name, `data` the
optional event key (`{ key: EventKey }` when `EventKey` is truthy). -/
structure ChannelEventInfo where
  type : Str
  data : Option Str := none

/-- Generic location field. -/
structure ChannelLocation where
  latitude : Int
  longitude : Int

/-- Generic channel message (`ChannelMessage`), restricted to the fields the
adapter and sender read or write. -/
structure ChannelMessage where
  peer : ChannelPeer
  text : Option Str := none
  media : List ChannelMedia := []
  replyTo : Option ReplyRef := none
  timestamp : Int := 0
  id : Str := []
  channel : Str := []
  accountId : Str := []
  mentions : List ChannelMention := []
  event : Option ChannelEventInfo := none
  location : Option ChannelLocation := none

/-- Vendor envelope content (`WeComMessageContent`). -/
structure WeComMessageContent where
  content : Option Str := none
  media_id : Option Str := none
  title : Option Str := none
  description : Option Str := none
  url : Option Str := none
  picurl : Option Str := none
  btntxt : Option Str := none
  markdown_content : Option Str := none

/-- Vendor send envelope (`WeComSendMessageParams`): msgtype kept as the
vendor string value. -/
structure WeComSendMessageParams where
  touser : Option Str := none
  toparty : Option Str := none
  totag : Option Str := none
  msgtype : Str
  agentid : Int
  content : WeComMessageContent

/-- The adapter's per-instance parameters (`WeComMessageAdapterImpl`
constructor arguments `agentId` and the optional message prefix). -/
structure WeComMessageAdapterImpl where
  agentId : Int
  messagePrefixOpt : Option Str := none

/-- The adapter's message-prefix step in `toWeComMessage`:
`if (this.messagePrefix && !contentText.startsWith(this.messagePrefix))
   contentText = this.messagePrefix + contentText`. -/
def prefixTransform (mp : Option Str) (t : Str) : Str :=
  match mp with
  | some p => if p ≠ [] ∧ ¬ p.isPrefixOf t then p ++ t else t
  | none => t

/-- `WeComMessageAdapterImpl.createMediaMessage`: switch on the media type,
then (for non-file types) let a truthy caption override the text content. -/
def createMediaMessage (a : WeComMessageAdapterImpl) (media : ChannelMedia)
    (touser toparty : Option Str) : WeComSendMessageParams :=
  let tc : Str × WeComMessageContent :=
    if media.type = "image".data then ("image".data, { media_id := some media.url })
    else if media.type = "video".data then ("video".data, { media_id := some media.url })
    else if media.type = "audio".data then ("voice".data, { media_id := some media.url })
    else if media.type = "file".data then ("file".data, { media_id := some media.url })
    else
      ("text".data,
        { content := some ("[".data ++ media.type ++ "] ".data ++ media.url ++
            (match media.caption with
             | some c => if c = [] then [] else '\n' :: c
             | none => [])) })
  let content :=
    match media.caption with
    | some c =>
        if c ≠ [] ∧ media.type ≠ "file".data then { tc.2 with content := some c } else tc.2
    | none => tc.2
  { touser := touser, toparty := toparty, msgtype := tc.1, agentid := a.agentId,
    content := content }

/-- `WeComMessageAdapterImpl.toWeComMessage`: choose the recipient field from
the peer kind, apply the message prefix once, prepend a reply attribution,
then branch between the media path and the plain text envelope. -/
def toWeComMessage (a : WeComMessageAdapterImpl) (msg : ChannelMessage) :
    WeComSendMessageParams :=
  let tp : Option Str × Option Str :=
    match msg.peer.kind with
    | .dm => (some msg.peer.id, none)
    | .group => (none, some msg.peer.id)
  let contentText := jsOrStr msg.text []
  let contentText := prefixTransform a.messagePrefixOpt contentText
  let contentText :=
    match msg.replyTo with
    | some r => "回复 ".data ++ jsOrStr r.senderName "用户".data ++ ":\n".data ++ contentText
    | none => contentText
  match msg.media with
  | m :: _ => createMediaMessage a m tp.1 tp.2
  | [] =>
      { touser := tp.1, toparty := tp.2, msgtype := "text".data, agentid := a.agentId,
        content := { content := some contentText } }

/-- JS `\w` character class (no unicode flag): ASCII letters, digits,
underscore. -/
def isWordChar (c : Char) : Bool :=
  ('a' ≤ c && c ≤ 'z') || ('A' ≤ c && c ≤ 'Z') || ('0' ≤ c && c ≤ '9') || c == '_'

/-- Left-to-right scan for `/@(\w+)/g`: at each `@` capture the maximal
nonempty run of word characters and continue after it. Fuel is bounded by the
string length, which suffices because every step consumes at least one
character. -/
def extractMentionsFuel : Nat → Str → List Str
  | 0, _ => []
  | _ + 1, [] => []
  | fuel + 1, c :: rest =>
    if c = '@' then
      let run := rest.takeWhile isWordChar
      if run = [] then extractMentionsFuel fuel rest
      else run :: extractMentionsFuel fuel (rest.dropWhile isWordChar)
    else extractMentionsFuel fuel rest

/-- `WeComMessageAdapterImpl.extractMentionedUsers`: all `@(\w+)` captures in
left-to-right order. -/
def extractMentionedUsers (text : Str) : List Str :=
  extractMentionsFuel text.length text

/-- `content.match(/@(\w+)/)` in `fromWeComMessage`: the first `@(\w+)`
capture group, if any. -/
def firstMentionMatch (s : Str) : Option Str :=
  (extractMentionedUsers s).head?

/-- `WeComMessageAdapterImpl.buildMentionText`: join `@id` tokens with
spaces, then a newline, then the body. -/
def buildMentionText (userIds : List Str) (text : Str) : Str :=
  if userIds = [] then text
  else List.intercalate " ".data (userIds.map (fun id => '@' :: id)) ++ '\n' :: text

/-- Inbound vendor push payload (`WeComReceivedMessage`). -/
structure WeComReceivedMessage where
  ToUserName : Str := []
  FromUserName : Str
  CreateTime : Int := 0
  MsgType : Str
  MsgId : Str := []
  AgentID : Int := 0
  Content : Option Str := none
  MediaId : Option Str := none
  PicUrl : Option Str := none
  Location_X : Option Int := none
  Location_Y : Option Int := none
  Scale : Option Int := none
  Label : Option Str := none
  Event : Option Str := none
  EventKey : Option Str := none

/-- The base generic message built at the head of `fromWeComMessage`: the
peer is always `dm`, with id and name both `FromUserName`. -/
def fromWeComBase (msg : WeComReceivedMessage) : ChannelMessage :=
  { peer := { kind := .dm, id := msg.FromUserName, name := msg.FromUserName },
    timestamp := msg.CreateTime * 1000, id := msg.MsgId,
    channel := "wecom".data, accountId := intToStr msg.AgentID }

/-- The `switch (msgType)` block of `fromWeComMessage`, updating the base
message. -/
def fromWeComDispatch (msg : WeComReceivedMessage) (base : ChannelMessage) : ChannelMessage :=
  if msg.MsgType = "text".data then
      match msg.Content with
      | some c =>
          if c = [] then base
          else
            let withText := { base with text := some c }
            match firstMentionMatch c with
            | some u => { withText with mentions := [{ userId := u, name := u }] }
            | none => withText
      | none => base
    else if msg.MsgType = "image".data then
      let u := jsOrStr msg.MediaId (jsOrStr msg.PicUrl [])
      if u = [] then base
      else { base with media := [{ type := "image".data, url := u, caption := msg.Content }] }
    else if msg.MsgType = "voice".data then
      let u := jsOrStr msg.MediaId []
      if u = [] then base
      else { base with media := [{ type := "audio".data, url := u, caption := msg.Content }] }
    else if msg.MsgType = "video".data then
      let u := jsOrStr msg.MediaId []
      if u = [] then base
      else { base with media := [{ type := "video".data, url := u, caption := msg.Content }] }
    else if msg.MsgType = "file".data then
      let u := jsOrStr msg.MediaId []
      if u = [] then base
      else { base with media := [{ type := "file".data, url := u, caption := msg.Content }] }
    else if msg.MsgType = "location".data then
      { base with
          text := some ("位置: ".data ++ jsOrStr msg.Label "未知位置".data),
          location := some { latitude := msg.Location_X.getD 0,
                             longitude := msg.Location_Y.getD 0 } }
    else
      { base with text := some ("[".data ++ msg.MsgType ++ "] ".data ++
          jsOrStr msg.Content "未知消息类型".data) }

/-- The `if (msg.Event)` block of `fromWeComMessage`: attach the typed event
field and synthesize the text for the common event kinds. -/
def fromWeComEvent (msg : WeComReceivedMessage) (m1 : ChannelMessage) : ChannelMessage :=
  match optTruthy msg.Event with
  | some ev =>
      let we := { m1 with event := some { type := ev, data := optTruthy msg.EventKey } }
      if ev = "subscribe".data then { we with text := some "用户关注了应用".data }
      else if ev = "unsubscribe".data then { we with text := some "用户取消关注应用".data }
      else if ev = "enter_agent".data then { we with text := some "用户进入了应用".data }
      else we
  | none => m1

/-- `WeComMessageAdapterImpl.fromWeComMessage`: build the base generic
message (peer always `dm` from `FromUserName`), dispatch on `MsgType`, then
overlay the event translation. -/
def fromWeComMessage (msg : WeComReceivedMessage) : ChannelMessage :=
  fromWeComEvent msg (fromWeComDispatch msg (fromWeComBase msg))

/-- Stored access token (`WeComAccessToken`): value, server TTL in seconds,
and local expiry timestamp in milliseconds. -/
structure WeComAccessToken where
  access_token : Str
  expires_in : Int
  expires_at : Int

/-- Vendor token-endpoint response body. -/
structure TokenResponse where
  errcode : Int
  errmsg : Str
  access_token : Option Str := none
  expires_in : Int := 0

/-- The token stored by `refreshAccessToken` on success:
`expires_at = Date.now() + (expires_in - 300) * 1000` (5-minute safety
margin). -/
def mkRefreshedToken (now : Int) (tok : Str) (expiresIn : Int) : WeComAccessToken :=
  { access_token := tok, expires_in := expiresIn, expires_at := now + (expiresIn - 300) * 1000 }

/-- Outcome of `WeComApiClient.refreshAccessToken` on a given response:
`if (response.errcode === 0 && response.access_token)` store the new token,
else throw. -/
def refreshAccessTokenApply (now : Int) (resp : TokenResponse) :
    Except Str WeComAccessToken :=
  match resp.access_token with
  | some tok =>
      if resp.errcode = 0 ∧ tok ≠ [] then .ok (mkRefreshedToken now tok resp.expires_in)
      else .error ("获取访问令牌失败: ".data ++ resp.errmsg)
  | none => .error ("获取访问令牌失败: ".data ++ resp.errmsg)

/-- The expiry check at the head of `WeComApiClient.getAccessToken`:
`!this.accessToken || Date.now() >= this.accessToken.expires_at`. -/
def tokenExpiredNow (now : Int) : Option WeComAccessToken → Bool
  | none => true
  | some t => decide (t.expires_at ≤ now)

/-!
Interleaving model of two concurrent `getAccessToken()` callers sharing one
`WeComApiClient`. Steps are the atomic segments between `await` points of
the JS event loop: a caller at `ready` runs the synchronous expiry check and,
if the token is absent/expired, issues the token fetch (one network call) and
suspends; a caller at `awaitingFetch` processes the response (stores the
token) and returns.
-/

/-- Program counter of one `getAccessToken()` caller. -/
inductive CallerPC
  | ready
  | awaitingFetch
  | finished
deriving DecidableEq

/-- Shared client state plus the two callers' program counters. -/
structure TokenSystem where
  accessToken : Option WeComAccessToken
  networkCalls : Nat
  pc0 : CallerPC
  pc1 : CallerPC

/-- One step of one caller against the shared state. -/
def stepCaller (now : Int) (resp : TokenResponse)
    (tok : Option WeComAccessToken) (calls : Nat) :
    CallerPC → (Option WeComAccessToken × Nat) × CallerPC
  | .ready =>
      if tokenExpiredNow now tok then ((tok, calls + 1), .awaitingFetch)
      else ((tok, calls), .finished)
  | .awaitingFetch =>
      match refreshAccessTokenApply now resp with
      | .ok t => ((some t, calls), .finished)
      | .error _ => ((tok, calls), .finished)
  | .finished => ((tok, calls), .finished)

/-- Step the system by scheduling caller 0 (`false`) or caller 1 (`true`). -/
def stepSystem (now : Int) (resp : TokenResponse) (s : TokenSystem) (i : Bool) :
    TokenSystem :=
  if i then
    let r := stepCaller now resp s.accessToken s.networkCalls s.pc1
    { accessToken := r.1.1, networkCalls := r.1.2, pc0 := s.pc0, pc1 := r.2 }
  else
    let r := stepCaller now resp s.accessToken s.networkCalls s.pc0
    { accessToken := r.1.1, networkCalls := r.1.2, pc0 := r.2, pc1 := s.pc1 }

/-- Run a schedule (a list of caller choices) from a system state. -/
def runSchedule (now : Int) (resp : TokenResponse) : List Bool → TokenSystem → TokenSystem
  | [], s => s
  | i :: rest, s => runSchedule now resp rest (stepSystem now resp s i)

/-- Both callers start `getAccessToken()` while no token is cached. -/
def initTokenSystem : TokenSystem :=
  { accessToken := none, networkCalls := 0, pc0 := .ready, pc1 := .ready }

/-- A successful vendor token response. -/
def respOk : TokenResponse :=
  { errcode := 0, errmsg := "ok".data, access_token := some "tok".data, expires_in := 7200 }

/-!
The sender (`WeComMessageSender.send`): vendor responses are abstracted as a
stream indexed by attempt number; the outcome records the returned result or
the thrown `WeComSendError`, the sender instance's retry counter after the
call, and the number of send attempts performed.
-/

/-- The configuration fields `WeComMessageSender` reads. -/
structure WeComConfig where
  agentId : Option Int := none
  maxRetries : Option Int := none
  tokenRefreshInterval : Option Int := none
  timeoutMs : Option Int := none

/-- JS `this.config.maxRetries || 3`: `undefined` and `0` are falsy. -/
def maxRetriesEff (cfg : WeComConfig) : Int :=
  match cfg.maxRetries with
  | some m => if m = 0 then 3 else m
  | none => 3

/-- The retryable vendor codes hard-coded in `shouldRetry`. -/
def retryableErrors : List Int := [42001, 40014, 45033, 45009, 50001]

/-- `WeComMessageSender.shouldRetry`: retryable code and retry budget not
exhausted. -/
def shouldRetry (cfg : WeComConfig) (retryCount : Int) (errorCode : Int) : Bool :=
  retryableErrors.contains errorCode && decide (retryCount < maxRetriesEff cfg)

/-- Vendor send-endpoint response (`errcode`, `errmsg`, `data?.msgid`). -/
structure WeComApiResponse where
  errcode : Int
  errmsg : Str
  msgid : Option Str := none

/-- The `SendResult` returned on success. -/
structure SendResult where
  success : Bool
  messageId : Str
  timestamp : Int

/-- The thrown `WeComSendError`: vendor code and vendor message. -/
structure WeComSendError where
  errorCode : Int
  errmsg : Str

/-- The recoverable codes of `WeComSendError.isRecoverable`. -/
def recoverableErrors : List Int := [42001, 40014, 45033]

/-- `WeComSendError.isRecoverable`. -/
def WeComSendError.isRecoverable (e : WeComSendError) : Bool :=
  recoverableErrors.contains e.errorCode

/-- Observable outcome of one `send()` call: the returned result or thrown
error, the instance's retry counter afterwards, and the attempts made. -/
structure SendOutcome where
  result : Except WeComSendError SendResult
  finalRetryCount : Int
  attempts : Nat

/-- The recursion of `send`/`retrySend` over the response stream: on
`errcode === 0` return success and reset the retry counter; otherwise retry
when `shouldRetry` holds (incrementing the counter), else throw the
`WeComSendError`. Fuel is bounded below by the remaining retry budget plus
one, which suffices because `shouldRetry` forces `retryCount` strictly below
`maxRetries` before every recursive call. -/
def sendGo (cfg : WeComConfig) (env : Nat → WeComApiResponse) (now : Int) :
    Nat → Nat → Int → SendOutcome
  | fuel, attempt, retryCount =>
    let r := env attempt
    if r.errcode = 0 then
      { result := .ok { success := true,
                        messageId := jsOrStr r.msgid ("wecom-".data ++ Nat.toDigits 10 now.toNat),
                        timestamp := now },
        finalRetryCount := 0, attempts := attempt + 1 }
    else if shouldRetry cfg retryCount r.errcode then
      match fuel with
      | fuel' + 1 => sendGo cfg env now fuel' (attempt + 1) (retryCount + 1)
      | 0 =>
          { result := .error { errorCode := r.errcode, errmsg := r.errmsg },
            finalRetryCount := retryCount, attempts := attempt + 1 }
    else
      { result := .error { errorCode := r.errcode, errmsg := r.errmsg },
        finalRetryCount := retryCount, attempts := attempt + 1 }

/-- One `send()` call on a sender instance whose retry counter currently
holds `retryCount`. -/
def send (cfg : WeComConfig) (env : Nat → WeComApiResponse) (now : Int)
    (retryCount : Int) : SendOutcome :=
  sendGo cfg env now ((maxRetriesEff cfg - retryCount).toNat + 1) 0 retryCount

/-- Number of recipient fields set on an envelope. -/
def recipientFieldCount (e : WeComSendMessageParams) : Nat :=
  (if e.touser.isSome then 1 else 0) + (if e.toparty.isSome then 1 else 0) +
    (if e.totag.isSome then 1 else 0)

/-!  Concrete fixtures used by witnesses and counterexamples. -/

/-- The generic text message of P6: dm peer `u1`, text `hi`. -/
def msgHi : ChannelMessage :=
  { peer := { kind := .dm, id := "u1".data, name := "u1".data }, text := some "hi".data }

/-- An adapter configured with message prefix `[AI] `. -/
def adapterAI : WeComMessageAdapterImpl :=
  { agentId := 0, messagePrefixOpt := some "[AI] ".data }

/-- A sender configuration with `maxRetries = 2`. -/
def cfgTwo : WeComConfig := { maxRetries := some 2 }

/-- A sender configuration leaving `maxRetries` unset (defaults to 3). -/
def cfgDefault : WeComConfig := {}

/-- A vendor that answers every attempt with the retryable auth-expired
code 42001. -/
def envAuth : Nat → WeComApiResponse := fun _ => { errcode := 42001, errmsg := "e".data }

/-- A vendor that answers every attempt with the retryable rate-limit
code 45009. -/
def envRate : Nat → WeComApiResponse := fun _ => { errcode := 45009, errmsg := "r".data }

/-- A vendor that answers every attempt with the non-retryable
target-not-found code 60111. -/
def env60111 : Nat → WeComApiResponse :=
  fun _ => { errcode := 60111, errmsg := "notfound".data }

/-- An inbound text push whose content holds two mentions. -/
def msgAB : WeComReceivedMessage :=
  { FromUserName := "u".data, MsgType := "text".data, Content := some "@a @b hi".data }

/-!  Helper lemmas. -/

/-- A retryable vendor code is never the success code 0. -/
lemma retryable_ne_zero {code : Int} (h : code ∈ retryableErrors) : code ≠ 0 := by
  simp only [retryableErrors, List.mem_cons, List.not_mem_nil, or_false] at h
  rcases h with h | h | h | h | h <;> omega

/-- `shouldRetry` in terms of membership and the retry budget. -/
lemma shouldRetry_iff (cfg : WeComConfig) (rc code : Int) :
    shouldRetry cfg rc code = true ↔ (code ∈ retryableErrors ∧ rc < maxRetriesEff cfg) := by
  simp [shouldRetry, List.contains, List.elem_iff]

/-- When the first response is a non-retryable error, `send` performs a
single attempt, throws that error, and leaves the retry counter unchanged. -/
lemma send_immediate_fail (cfg : WeComConfig) (env : Nat → WeComApiResponse) (now : Int)
    (rc : Int) (h1 : (env 0).errcode ≠ 0)
    (h2 : shouldRetry cfg rc (env 0).errcode = false) :
    send cfg env now rc =
      { result := .error { errorCode := (env 0).errcode, errmsg := (env 0).errmsg },
        finalRetryCount := rc, attempts := 1 } := by
  unfold send sendGo
  simp [h1, h2]

/-- Every successful exit of the send loop resets the retry counter to 0. -/
lemma sendGo_success_resets (cfg : WeComConfig) (env : Nat → WeComApiResponse) (now : Int) :
    ∀ (fuel attempt : Nat) (rc : Int) (r : SendResult),
      (sendGo cfg env now fuel attempt rc).result = .ok r →
      (sendGo cfg env now fuel attempt rc).finalRetryCount = 0 := by
  intro fuel
  induction fuel with
  | zero =>
      intro attempt rc r h
      unfold sendGo at h ⊢
      by_cases h0 : (env attempt).errcode = 0
      · simp [h0]
      · by_cases hs : shouldRetry cfg rc (env attempt).errcode <;> simp [h0, hs] at h
  | succ fuel ih =>
      intro attempt rc r h
      unfold sendGo at h ⊢
      by_cases h0 : (env attempt).errcode = 0
      · simp [h0]
      · by_cases hs : shouldRetry cfg rc (env attempt).errcode
        · simp only [h0, if_false, hs, if_true] at h ⊢
          exact ih (attempt + 1) (rc + 1) r h
        · simp [h0, hs] at h

/-- When every response carries a retryable error code, the send loop retries
until the budget is exhausted: the final counter equals `maxRetries`, the
attempt count is the remaining budget plus one, and the error of the last
attempt is thrown. -/
lemma sendGo_allRetryable (cfg : WeComConfig) (env : Nat → WeComApiResponse) (now : Int)
    (h : ∀ n, (env n).errcode ∈ retryableErrors) :
    ∀ (fuel attempt : Nat) (rc : Int),
      (maxRetriesEff cfg - rc).toNat ≤ fuel → rc ≤ maxRetriesEff cfg →
      sendGo cfg env now fuel attempt rc =
        { result := .error
            { errorCode := (env (attempt + (maxRetriesEff cfg - rc).toNat)).errcode,
              errmsg := (env (attempt + (maxRetriesEff cfg - rc).toNat)).errmsg },
          finalRetryCount := maxRetriesEff cfg,
          attempts := attempt + (maxRetriesEff cfg - rc).toNat + 1 } := by
  intro fuel
  induction fuel with
  | zero =>
      intro attempt rc hf hrc
      have hm : maxRetriesEff cfg = rc := by omega
      have hne := retryable_ne_zero (h attempt)
      have hs : shouldRetry cfg rc (env attempt).errcode = false := by
        rw [Bool.eq_false_iff]
        intro htrue
        exact absurd ((shouldRetry_iff cfg rc _).mp htrue).2 (by omega)
      unfold sendGo
      simp [hne, hs, hm]
  | succ fuel ih =>
      intro attempt rc hf hrc
      have hne := retryable_ne_zero (h attempt)
      by_cases hlt : rc < maxRetriesEff cfg
      · have hs : shouldRetry cfg rc (env attempt).errcode = true :=
          (shouldRetry_iff cfg rc _).mpr ⟨h attempt, hlt⟩
        have hidx : attempt + 1 + (maxRetriesEff cfg - (rc + 1)).toNat =
            attempt + (maxRetriesEff cfg - rc).toNat := by omega
        unfold sendGo
        simp only [hne, if_false, hs, if_true]
        rw [ih (attempt + 1) (rc + 1) (by omega) (by omega), hidx]
      · have hm : maxRetriesEff cfg = rc := by omega
        have hs : shouldRetry cfg rc (env attempt).errcode = false := by
          rw [Bool.eq_false_iff]
          intro htrue
          exact absurd ((shouldRetry_iff cfg rc _).mp htrue).2 (by omega)
        unfold sendGo
        simp [hne, hs, hm]

/-- Number of callers still before their expiry check. -/
def readyCount (s : TokenSystem) : Nat :=
  (if s.pc0 = CallerPC.ready then 1 else 0) + (if s.pc1 = CallerPC.ready then 1 else 0)

/-- One caller step never increases `networkCalls` plus the number of callers
still ahead of their check: a network call is only issued when a caller
passes its check, and each caller passes it at most once. -/
lemma stepCaller_measure (now : Int) (resp : TokenResponse) (tok : Option WeComAccessToken)
    (calls : Nat) (pc : CallerPC) :
    (stepCaller now resp tok calls pc).1.2
      + (if (stepCaller now resp tok calls pc).2 = CallerPC.ready then 1 else 0)
      ≤ calls + (if pc = CallerPC.ready then 1 else 0) := by
  cases pc with
  | ready =>
      by_cases h : tokenExpiredNow now tok = true <;> simp [stepCaller, h]
  | awaitingFetch =>
      cases h : refreshAccessTokenApply now resp <;> simp [stepCaller, h]
  | finished => simp [stepCaller]

/-- The same measure is non-increasing for a full system step. -/
lemma stepSystem_measure (now : Int) (resp : TokenResponse) (s : TokenSystem) (i : Bool) :
    (stepSystem now resp s i).networkCalls + readyCount (stepSystem now resp s i)
      ≤ s.networkCalls + readyCount s := by
  cases i with
  | false =>
      have h := stepCaller_measure now resp s.accessToken s.networkCalls s.pc0
      simp only [stepSystem, readyCount, Bool.false_eq_true, if_false]
      omega
  | true =>
      have h := stepCaller_measure now resp s.accessToken s.networkCalls s.pc1
      simp only [stepSystem, readyCount, if_true]
      omega

/-- The measure is non-increasing along any schedule. -/
lemma runSchedule_measure (now : Int) (resp : TokenResponse) :
    ∀ (sch : List Bool) (s : TokenSystem),
      (runSchedule now resp sch s).networkCalls + readyCount (runSchedule now resp sch s)
        ≤ s.networkCalls + readyCount s
  | [], _ => le_refl _
  | i :: rest, s =>
      le_trans (runSchedule_measure now resp rest (stepSystem now resp s i))
        (stepSystem_measure now resp s i)

/-- C2 counterexample: two concurrent `getAccessToken()` callers that both
run their expiry check while no token is cached each issue their own fetch —
the interleaving check0, check1, store0, store1 produces 2 network calls, not
at most 1. -/
theorem refresh_dedup_cex :
    (runSchedule 0 respOk [false, true, false, true] initTokenSystem).networkCalls = 2 := by
  decide

/-- C2 amended: `getAccessToken` performs no in-flight refresh
deduplication — each of the two concurrent callers that observes the token
absent/expired issues its own network call, so N concurrent callers produce
up to N (not at most 1) token-endpoint calls; the bound per caller is one. -/
theorem refresh_per_caller_bound (now : Int) (resp : TokenResponse) (sch : List Bool) :
    (runSchedule now resp sch initTokenSystem).networkCalls ≤ 2
    ∧ (runSchedule 0 respOk [false, true, false, true] initTokenSystem).networkCalls = 2 := by
  constructor
  · have h := runSchedule_measure now resp sch initTokenSystem
    unfold initTokenSystem at h ⊢
    simp [readyCount] at h
    omega
  · decide

/-- C5: a successful token refresh at local time `now` with reported
lifetime `expires_in` stores a token whose expiry timestamp is
`now + (expires_in - 300) * 1000` — the vendor lifetime minus a 5-minute
safety margin. -/
theorem token_expiry_margin (now : Int) (resp : TokenResponse) (tok : Str)
    (h0 : resp.errcode = 0) (h1 : resp.access_token = some tok) (h2 : tok ≠ []) :
    refreshAccessTokenApply now resp = .ok (mkRefreshedToken now tok resp.expires_in)
    ∧ (mkRefreshedToken now tok resp.expires_in).expires_at =
        now + (resp.expires_in - 300) * 1000 := by
  constructor
  · simp [refreshAccessTokenApply, h1, h0, h2]
  · rfl

/-- Witness for C5 at the concrete response `respOk` observed at time
1000000. -/
theorem token_expiry_margin_witness :
    refreshAccessTokenApply 1000000 respOk = .ok (mkRefreshedToken 1000000 "tok".data 7200)
    ∧ (mkRefreshedToken 1000000 "tok".data 7200).expires_at = 1000000 + (7200 - 300) * 1000 :=
  token_expiry_margin 1000000 respOk "tok".data rfl rfl (by decide)

/-- C6: translating the dm text message `hi` with message prefix `[AI] `
yields an envelope whose text content is `[AI] hi`, and the prefix transform
is idempotent: applying it twice equals applying it once. -/
theorem prefix_once_idempotent :
    (toWeComMessage adapterAI msgHi).content.content = some "[AI] hi".data
    ∧ ∀ (mp : Option Str) (t : Str),
        prefixTransform mp (prefixTransform mp t) = prefixTransform mp t := by
  refine ⟨by decide, ?_⟩
  intro mp t
  cases mp with
  | none => rfl
  | some p =>
      simp only [prefixTransform]
      by_cases hp : p = []
      · simp [hp]
      · by_cases hpre : p.isPrefixOf t
        · simp [hp, hpre]
        · simp only [hp, hpre, ne_eq, not_false_iff, true_and, not_true, if_true, if_false]
          have : p.isPrefixOf (p ++ t) := List.isPrefixOf_iff_prefix.mpr (List.prefix_append p t)
          simp [this]

/-- C7: mention extraction on `@zhangsan @lisi 请参加会议` returns the ids in
left-to-right order, and mention-text construction joins `@`-prefixed ids
with spaces followed by a newline and the body. -/
theorem mention_utilities_spec :
    extractMentionedUsers "@zhangsan @lisi 请参加会议".data = ["zhangsan".data, "lisi".data]
    ∧ buildMentionText ["a".data, "b".data] "go".data = "@a @b\ngo".data :=
  ⟨by decide, by decide⟩

/-- C8 counterexample: for the inbound text `@a @b hi`, the translated
message's mentions list holds only the first mention `a`, although the
content holds the two mention tokens `a` and `b`. -/
theorem inbound_first_mention_only_cex :
    (fromWeComMessage msgAB).mentions.map (fun m => m.userId) = ["a".data]
    ∧ extractMentionedUsers "@a @b hi".data = ["a".data, "b".data] :=
  ⟨by decide, by decide⟩

/-- C8 amended: for an inbound text message with non-empty content (and no
event overlay), the translated text equals the vendor content verbatim, and
the mentions list holds exactly one entry for the first `@token` occurrence
(or is empty when there is none) — later occurrences are not represented. -/
theorem inbound_text_first_mention (msg : WeComReceivedMessage) (c : Str)
    (ht : msg.MsgType = "text".data) (hc : msg.Content = some c) (hne : c ≠ [])
    (hev : msg.Event = none) :
    (fromWeComMessage msg).text = some c
    ∧ (fromWeComMessage msg).mentions =
        (match firstMentionMatch c with
         | some u => [{ userId := u, name := u }]
         | none => []) := by
  unfold fromWeComMessage fromWeComEvent fromWeComDispatch
  rw [hev, ht, hc]
  cases hm : firstMentionMatch c <;> simp [optTruthy, hne, hm, fromWeComBase]

/-- Witness for C8's amended statement at the concrete inbound text
`@a @b hi`. -/
theorem inbound_text_first_mention_witness :
    (fromWeComMessage msgAB).text = some "@a @b hi".data
    ∧ (fromWeComMessage msgAB).mentions =
        (match firstMentionMatch "@a @b hi".data with
         | some u => [{ userId := u, name := u }]
         | none => []) :=
  inbound_text_first_mention msgAB "@a @b hi".data rfl rfl (by decide) rfl

/-- C9: every envelope produced by the outbound translation sets exactly one
recipient field: `touser` (the peer id) for a dm peer, `toparty` (the peer
id) for a group peer, and never `totag`. -/
theorem recipient_exactly_one (a : WeComMessageAdapterImpl) (msg : ChannelMessage) :
    (toWeComMessage a msg).totag = none
    ∧ recipientFieldCount (toWeComMessage a msg) = 1
    ∧ (msg.peer.kind = .dm →
        (toWeComMessage a msg).touser = some msg.peer.id
        ∧ (toWeComMessage a msg).toparty = none)
    ∧ (msg.peer.kind = .group →
        (toWeComMessage a msg).toparty = some msg.peer.id
        ∧ (toWeComMessage a msg).touser = none) := by
  cases hmedia : msg.media with
  | nil =>
      cases hk : msg.peer.kind <;>
        simp [toWeComMessage, recipientFieldCount, hmedia, hk]
  | cons m ms =>
      cases hk : msg.peer.kind <;>
        simp [toWeComMessage, createMediaMessage, recipientFieldCount, hmedia, hk]

/-- Witness for C9 at the concrete dm message `msgHi`. -/
theorem recipient_exactly_one_witness :
    (toWeComMessage adapterAI msgHi).touser = some "u1".data
    ∧ (toWeComMessage adapterAI msgHi).toparty = none :=
  (recipient_exactly_one adapterAI msgHi).2.2.1 rfl

/-- The MsgType dispatch never changes the peer. -/
lemma fromWeComDispatch_peer (msg : WeComReceivedMessage) (b : ChannelMessage) :
    (fromWeComDispatch msg b).peer = b.peer := by
  unfold fromWeComDispatch
  dsimp only
  repeat' split
  all_goals rfl

/-- The event overlay never changes the peer. -/
lemma fromWeComEvent_peer (msg : WeComReceivedMessage) (m : ChannelMessage) :
    (fromWeComEvent msg m).peer = m.peer := by
  unfold fromWeComEvent
  dsimp only
  repeat' split
  all_goals rfl

/-- C10: the inbound translation always produces a dm peer whose id and
display name are both the vendor `FromUserName`, regardless of `MsgType` or
events. -/
theorem inbound_peer_always_dm (msg : WeComReceivedMessage) :
    (fromWeComMessage msg).peer =
      { kind := .dm, id := msg.FromUserName, name := msg.FromUserName } := by
  unfold fromWeComMessage
  rw [fromWeComEvent_peer, fromWeComDispatch_peer]
  rfl

/-- C1 counterexample: with `maxRetries = 2` and a vendor answering the
retryable code 42001 on every attempt, `send()` performs 3 attempts
(2 retries) and then throws the `WeComSendError` — the outcome is an error,
not a returned result with `success: false`. -/
theorem send_exhaustion_throws_cex :
    (send cfgTwo envAuth 7 0).result = .error { errorCode := 42001, errmsg := "e".data }
    ∧ (send cfgTwo envAuth 7 0).attempts = 3 :=
  ⟨rfl, rfl⟩

/-- C1 amended: for a retryable vendor error repeated indefinitely, a
`send()` starting from a zero retry counter performs exactly `maxRetries`
retries (`maxRetries + 1` attempts) and then throws a structured
`WeComSendError` carrying the vendor code and message — it does not return a
`success:false` result. -/
theorem send_retry_exhaustion (cfg : WeComConfig) (env : Nat → WeComApiResponse) (now : Int)
    (h : ∀ n, (env n).errcode ∈ retryableErrors) (hm : 0 ≤ maxRetriesEff cfg) :
    (send cfg env now 0).result =
      .error { errorCode := (env (maxRetriesEff cfg).toNat).errcode,
               errmsg := (env (maxRetriesEff cfg).toNat).errmsg }
    ∧ (send cfg env now 0).attempts = (maxRetriesEff cfg).toNat + 1 := by
  unfold send
  rw [sendGo_allRetryable cfg env now h _ 0 0 (by omega) hm]
  constructor <;> simp

/-- Witness for C1's amended statement at `maxRetries = 2` and the constant
auth-expired vendor. -/
theorem send_retry_exhaustion_witness :
    (send cfgTwo envAuth 7 0).result =
      .error { errorCode := (envAuth (maxRetriesEff cfgTwo).toNat).errcode,
               errmsg := (envAuth (maxRetriesEff cfgTwo).toNat).errmsg }
    ∧ (send cfgTwo envAuth 7 0).attempts = (maxRetriesEff cfgTwo).toNat + 1 :=
  send_retry_exhaustion cfgTwo envAuth 7
    (fun _ => show (42001 : Int) ∈ retryableErrors by decide) (by decide)

/-- C3: `send` retries exactly when the vendor code lies in the retryable
set {42001, 40014, 45033, 45009, 50001} and the budget is not exhausted; any
other error code (such as target-not-found 60111/60123) causes exactly one
attempt and an immediate failure carrying that code. -/
theorem retry_code_classification :
    (∀ (cfg : WeComConfig) (rc code : Int),
        shouldRetry cfg rc code = true ↔
          (code ∈ ([42001, 40014, 45033, 45009, 50001] : List Int)
            ∧ rc < maxRetriesEff cfg))
    ∧ (∀ (cfg : WeComConfig) (env : Nat → WeComApiResponse) (now rc : Int),
        (env 0).errcode ∉ retryableErrors → (env 0).errcode ≠ 0 →
        (send cfg env now rc).attempts = 1
        ∧ (send cfg env now rc).result =
            .error { errorCode := (env 0).errcode, errmsg := (env 0).errmsg }) := by
  constructor
  · intro cfg rc code
    exact shouldRetry_iff cfg rc code
  · intro cfg env now rc h1 h2
    have hs : shouldRetry cfg rc (env 0).errcode = false := by
      rw [Bool.eq_false_iff]
      intro ht
      exact h1 ((shouldRetry_iff cfg rc _).mp ht).1
    rw [send_immediate_fail cfg env now rc h2 hs]
    exact ⟨rfl, rfl⟩

/-- Witness for C3: 42001 is retryable under an unexhausted budget, and the
target-not-found code 60111 fails after exactly one attempt. -/
theorem retry_code_classification_witness :
    shouldRetry cfgTwo 0 42001 = true
    ∧ (send cfgTwo env60111 7 0).attempts = 1
    ∧ (send cfgTwo env60111 7 0).result =
        .error { errorCode := 60111, errmsg := "notfound".data } :=
  ⟨(retry_code_classification.1 cfgTwo 0 42001).mpr ⟨by decide, by decide⟩,
   (retry_code_classification.2 cfgTwo env60111 7 0 (by decide) (by decide)).1,
   (retry_code_classification.2 cfgTwo env60111 7 0 (by decide) (by decide)).2⟩

/-- C4: the retry counter is per sender instance: a send that begins with
counter `rc` is not reset at the start (its budget is `maxRetries - rc`), the
counter is incremented once per retry (ending at `maxRetries` when the
budget is exhausted), is left untouched by a non-retryable failure, and is
set back to zero exactly on a successful attempt. -/
theorem retryCounter_per_instance (cfg : WeComConfig) (env : Nat → WeComApiResponse)
    (now rc : Int) :
    ((env 0).errcode = 0 → (send cfg env now rc).finalRetryCount = 0)
    ∧ (∀ r, (send cfg env now rc).result = .ok r →
        (send cfg env now rc).finalRetryCount = 0)
    ∧ ((env 0).errcode ≠ 0 → (env 0).errcode ∉ retryableErrors →
        (send cfg env now rc).finalRetryCount = rc ∧ (send cfg env now rc).attempts = 1)
    ∧ ((∀ n, (env n).errcode ∈ retryableErrors) → rc ≤ maxRetriesEff cfg →
        (send cfg env now rc).finalRetryCount = maxRetriesEff cfg
        ∧ (send cfg env now rc).attempts = (maxRetriesEff cfg - rc).toNat + 1) := by
  refine ⟨?_, ?_, ?_, ?_⟩
  · intro h0
    unfold send sendGo
    simp [h0]
  · intro r hr
    exact sendGo_success_resets cfg env now _ 0 rc r hr
  · intro h1 h2
    have hs : shouldRetry cfg rc (env 0).errcode = false := by
      rw [Bool.eq_false_iff]
      intro ht
      exact h2 ((shouldRetry_iff cfg rc _).mp ht).1
    rw [send_immediate_fail cfg env now rc h1 hs]
    exact ⟨rfl, rfl⟩
  · intro h hrc
    unfold send
    rw [sendGo_allRetryable cfg env now h _ 0 rc (by omega) hrc]
    exact ⟨rfl, by simp⟩

/-- Witness for C4: a send starting with counter 1 under constant
rate-limit errors ends with the counter at `maxRetries` and performed only
the remaining budget of attempts — the counter was not reset at the start. -/
theorem retryCounter_per_instance_witness :
    (send cfgTwo envRate 7 1).finalRetryCount = maxRetriesEff cfgTwo
    ∧ (send cfgTwo envRate 7 1).attempts = (maxRetriesEff cfgTwo - 1).toNat + 1 :=
  (retryCounter_per_instance cfgTwo envRate 7 1).2.2.2
    (fun _ => show (45009 : Int) ∈ retryableErrors by decide) (by decide)

end WeCom
